import Mathlib

/-!
Verification of the Bee_TSP titration protocol engine
(`bee_tsp/titration/protocol.py`, `statistics.py`, `analysis.py`)
against its natural-language specification.

Shallow embedding conventions:
* Python floats are modelled as `ℚ` (no claim here concerns rounding).
* Python ints are `ℤ` (or `ℕ` for counts).
* Fallible Python code (code that can raise) returns `Except String α`;
  a caught exception is an `Except.error` consumed by the handler.
* External collaborators (the solver object, `scipy.stats.wilcoxon`'s
  p-value, numpy's bootstrap resampling) are opaque parameters; only the
  structure the orchestrator/enforcer imposes on them is fixed here.
-/

namespace BeeTsp

/-! ## Statistics: `StatisticalEnforcer` (`bee_tsp/titration/statistics.py`) -/

/-- `StatisticalResult` dataclass (statistics.py lines 15-25).
`instance` is a Lean keyword, hence the field name `instance_`. -/
structure StatisticalResult where
  instance_ : String
  integrator_a : String
  integrator_b : String
  n_samples : ℕ
  p_value : ℚ
  effect_size_cliffs_delta : ℚ
  ci_95_lower : ℚ
  ci_95_upper : ℚ
  protocol_compliant : Bool
deriving DecidableEq, Repr

/-- Signed dominance count of `cliffs_delta` (statistics.py lines 33-39):
for each pair `(xi, yi)` add 1 if `xi < yi`, subtract 1 if `xi > yi`. -/
def cliffsNumerator (x y : List ℚ) : ℤ :=
  x.foldl (fun acc xi =>
    y.foldl (fun acc2 yi =>
      if xi < yi then acc2 + 1 else if xi > yi then acc2 - 1 else acc2) acc) 0

/-- `StatisticalEnforcer.cliffs_delta` (statistics.py lines 28-41). -/
def cliffs_delta (x y : List ℚ) : ℚ :=
  (cliffsNumerator x y : ℚ) / ((x.length : ℚ) * (y.length : ℚ))

/-- `len(set(l)) == 1` for a Python list of numbers: the list is non-empty
and all elements are equal. Computed as in the source via the set of
distinct values (`List.dedup`). -/
def oneDistinct (l : List ℚ) : Bool :=
  l.dedup.length == 1

/-- The spec's wording "internally constant": non-empty with all elements
equal to one constant. -/
def InternallyConstant (l : List ℚ) : Prop :=
  ∃ c, l ≠ [] ∧ ∀ x ∈ l, x = c

theorem oneDistinct_iff (l : List ℚ) :
    oneDistinct l = true ↔ InternallyConstant l := by
  constructor
  · intro h
    have hlen : l.dedup.length = 1 := by
      simpa [oneDistinct] using h
    obtain ⟨c, hc⟩ := List.length_eq_one.mp hlen
    refine ⟨c, ?_, ?_⟩
    · intro hnil; simp [hnil] at hlen
    · intro x hx
      have : x ∈ l.dedup := List.mem_dedup.mpr hx
      rw [hc] at this
      simpa using this
  · rintro ⟨c, hne, hall⟩
    have hc : c ∈ l := by
      cases l with
      | nil => exact absurd rfl hne
      | cons a t =>
          have : a = c := hall a (by simp)
          simp [← this]
    have hnodup : l.dedup.Nodup := l.nodup_dedup
    have hmem : ∀ x ∈ l.dedup, x = c := fun x hx => hall x (List.mem_dedup.mp hx)
    have hcd : c ∈ l.dedup := List.mem_dedup.mpr hc
    have : l.dedup = [c] := by
      cases hd : l.dedup with
      | nil => rw [hd] at hcd; simp at hcd
      | cons a t =>
          have ha : a = c := hmem a (by rw [hd]; simp)
          have ht : t = [] := by
            by_contra htne
            obtain ⟨b, hb⟩ := List.exists_mem_of_ne_nil t htne
            have hbc : b = c := hmem b (by rw [hd]; simp [hb])
            rw [hd] at hnodup
            have := hnodup.not_mem
            exact this (by rw [ha, ← hbc] at *; exact hb)
          rw [ha, ht]
    simp [oneDistinct, this]

/-- Result of the branch taken when both groups have one distinct value and
those values coincide (statistics.py lines 70-81). -/
def equalConstantsResult (inst ia ib : String) (n : ℕ) : StatisticalResult :=
  { instance_ := inst
    integrator_a := ia
    integrator_b := ib
    n_samples := n
    p_value := 1
    effect_size_cliffs_delta := 0
    ci_95_lower := 0
    ci_95_upper := 0
    protocol_compliant := false }

/-- Result of the "perfect separation" branch (statistics.py lines 82-94):
`p_value = 1e-15`, `effect_size = 1.0` (the literal, sign-free constant in
the source), compliant. -/
def perfectSeparationResult (inst ia ib : String) (n : ℕ) : StatisticalResult :=
  { instance_ := inst
    integrator_a := ia
    integrator_b := ib
    n_samples := n
    p_value := 1 / 10 ^ 15
    effect_size_cliffs_delta := 1
    ci_95_lower := 0
    ci_95_upper := 0
    protocol_compliant := true }

/-- `StatisticalEnforcer.paired_comparison` (statistics.py lines 56-118).

The two external computations of the general branch are parameters:
* `wil` models `scipy.stats.wilcoxon(a, b, alternative="two-sided")`
  projected to its p-value; it returns `Except` because scipy raises on
  some inputs (see `scipyWilcoxon`).
* `boot` models `StatisticalEnforcer.bootstrap_ci`, whose value depends on
  the ambient (unseeded) numpy generator; any pair of reals may come back.

The zero-variance check `len(set(a)) == 1 or len(set(b)) == 1` and the
inner test `len(set(a)) == len(set(b)) == 1 and a[0] == b[0]` are
translated verbatim; `a.head? = b.head?` is `a[0] == b[0]` (both heads
exist inside that branch). An uncaught scipy exception propagates out of
`paired_comparison`, hence the `Except` result. -/
def generalBranchResult (boot : List ℚ → List ℚ → ℚ × ℚ)
    (lengths_a lengths_b : List ℚ) (inst ia ib : String) (p : ℚ) :
    StatisticalResult :=
  let n := lengths_a.length
  let delta := cliffs_delta lengths_a lengths_b
  let ci := boot lengths_a lengths_b
  { instance_ := inst
    integrator_a := ia
    integrator_b := ib
    n_samples := n
    p_value := p
    effect_size_cliffs_delta := delta
    ci_95_lower := ci.1
    ci_95_upper := ci.2
    protocol_compliant :=
      decide (30 ≤ n) && decide (p < 1 / 1000) && decide (1 / 10 < |delta|) }

def paired_comparison
    (wil : List ℚ → List ℚ → Except String ℚ)
    (boot : List ℚ → List ℚ → ℚ × ℚ)
    (lengths_a lengths_b : List ℚ)
    (inst ia ib : String) : Except String StatisticalResult :=
  let n := lengths_a.length
  if oneDistinct lengths_a || oneDistinct lengths_b then
    if oneDistinct lengths_a && oneDistinct lengths_b
        && (lengths_a.head? == lengths_b.head?) then
      .ok (equalConstantsResult inst ia ib n)
    else
      .ok (perfectSeparationResult inst ia ib n)
  else
    match wil lengths_a lengths_b with
    | .error e => .error e
    | .ok p => .ok (generalBranchResult boot lengths_a lengths_b inst ia ib p)

/-- Model of `scipy.stats.wilcoxon(x, y)` with the default `zero_method`
("wilcox"): it raises `ValueError` when every paired difference `x - y` is
zero, and otherwise yields a p-value (opaque here, supplied by `pv`).
This mirrors scipy's documented behavior at the call site in
statistics.py line 97. -/
def scipyWilcoxon (pv : List ℚ → List ℚ → ℚ) (x y : List ℚ) :
    Except String ℚ :=
  if (List.zipWith (fun a b => a - b) x y).all (fun d => d == 0) then
    .error "zero_method wilcox and pratt do not work if x - y is zero for all elements"
  else
    .ok (pv x y)

/-! ## Python values and the orchestrator (`bee_tsp/titration/protocol.py`) -/

/-- Python values as they appear in a `ProtocolResult.__dict__`: JSON
atoms, lists, tuples and string-keyed dicts. Tuples and lists are distinct
(and compare unequal) in Python; JSON has only arrays. -/
inductive PVal where
  | pnull : PVal
  | pbool : Bool → PVal
  | pint : ℤ → PVal
  | pfloat : ℚ → PVal
  | pstr : String → PVal
  | plist : List PVal → PVal
  | ptuple : List PVal → PVal
  | pdict : List (String × PVal) → PVal

/-- One experiment key: `(instance, integrator_name, budget, seed)` as
enumerated by `TitrationProtocol.run` (protocol.py lines 114-119). -/
structure TrialSpec where
  instance_ : String
  integrator : String
  budget_s : ℚ
  seed : ℤ
deriving DecidableEq, Repr

/-- `ProtocolResult` dataclass (protocol.py lines 20-39), field for field
and in declaration order (which is also `__dict__` order). -/
structure ProtocolResult where
  instance_ : String
  integrator : String
  budget_s : ℚ
  seed : ℤ
  best_length : ℤ
  time_to_best_s : ℚ
  final_gap_pct : ℚ
  hk_bound : ℤ
  wall_time_s : ℚ
  machine_info : PVal
  compute_cost_usd : ℚ
  raw_trace : List (ℚ × ℤ)
  deviations : List String
  cycles_explored : ℤ
  repair_path : String

/-- The opaque solver collaborator. `solve` receives
`(instance_path, max_time_s, seed, candidate_k)` and either returns a
`(tour, trace)` pair or raises; `diagnostics` models
`get_last_run_diagnostics()`, which may itself raise, and whose result may
or may not carry the `cycles_explored` / `repair_path` entries (hence the
`Option` components, matching the `.get(..., default)` extraction in
protocol.py lines 191-203). -/
structure Solver where
  solve : String → ℚ → ℤ → ℕ → Except String (List ℤ × List (ℚ × ℤ))
  diagnostics : Except String (Option ℤ × Option String)

/-- `TitrationConfig` (config.py lines 29-37), restricted to the fields the
protocol reads. -/
structure TitrationConfig where
  tsplib_dir : String
  instances : List String
  integrators : List String
  budgets : List ℚ
  seeds : List ℤ
  candidate_k : ℕ
  aws_hourly_rate : ℚ

/-- The state a constructed `TitrationProtocol` object holds: the config,
the machine descriptor and bound/optimal tables loaded once in
`__init__`, the integrator registry built by `_build_integrators`
(which registers only `"lkh"` in the source), and the file system used by
`_validate_cfg` to resolve instance paths. -/
structure TitrationProtocol where
  cfg : TitrationConfig
  machine_info : PVal
  hk_bounds : String → Option ℤ
  optimal_lengths : String → Option ℤ
  integrators : String → Option Solver
  files : String → Bool

/-- `self.cfg.tsplib_dir / f"{inst}.tsp"`. -/
def instancePath (P : TitrationProtocol) (inst : String) : String :=
  P.cfg.tsplib_dir ++ "/" ++ inst ++ ".tsp"

/-- `TitrationProtocol._validate_cfg` (protocol.py lines 65-73): at least
5 seeds and every instance file present. -/
def validate_cfg (P : TitrationProtocol) : Bool :=
  decide (5 ≤ P.cfg.seeds.length)
    && P.cfg.instances.all (fun i => P.files (instancePath P i))

/-- The gap denominator of `_run_single` (protocol.py lines 166-168):
HK bound when the key is present, else the optimal value (0 encoding
"not found"), clamped to 1 when non-positive. -/
def gapDenominator (hk : Option ℤ) (optimal : ℤ) : ℤ :=
  let gd := match hk with
    | some h => h
    | none => optimal
  if gd ≤ 0 then 1 else gd

/-- The spec's reference gap-denominator definition, following its words:
"denominator = HK bound if known, else known-optimal length if known,
else 1 (clamped to avoid division by zero)". `optimal = none` is the
"optimal not known" case; the final clamp is the spec's parenthetical. -/
def specGapDenominator (hk : Option ℤ) (optimal : Option ℤ) : ℤ :=
  let gd := match hk with
    | some h => h
    | none =>
        match optimal with
        | some o => o
        | none => 1
  if gd ≤ 0 then 1 else gd

/-- The deviations accumulated before dispatch (protocol.py lines
170-174). -/
def baseDeviations (hk : Option ℤ) (optimal : ℤ) : List String :=
  (if hk.isNone then ["HK bound not computed; using optimal = " ++ toString optimal]
   else [])
    ++ (if optimal = 0 then ["Optimal length missing; gap calculation invalid"]
        else [])

/-- The record built by the `try` branch of `_run_single` (protocol.py
lines 176-224). The success branch consumes the first trace checkpoint
(`trace[0]`), falling back to `-1` / the budget on an empty trace; the
`hk_bound` field uses Python's truthiness (`hk_bound or optimal`: `None`
and `0` both fall back to `optimal`); the diagnostics extraction is
defensive (inner `try`, lines 190-203), defaulting to `(0, "lkh")`. -/
def successRecord (P : TitrationProtocol) (t : TrialSpec) (s : Solver)
    (trace : List (ℚ × ℤ)) : ProtocolResult :=
  let optimal := (P.optimal_lengths t.instance_).getD 0
  let hk := P.hk_bounds t.instance_
  let gap_denominator := gapDenominator hk optimal
  let length : ℤ := match trace.head? with
    | some c => c.2
    | none => -1
  let elapsed : ℚ := match trace.head? with
    | some c => c.1
    | none => t.budget_s
  let diag : ℤ × String := match s.diagnostics with
    | .ok d => (d.1.getD 0, d.2.getD "lkh")
    | .error _ => (0, "lkh")
  { instance_ := t.instance_
    integrator := t.integrator
    budget_s := t.budget_s
    seed := t.seed
    best_length := length
    time_to_best_s := elapsed
    final_gap_pct :=
      ((length : ℚ) - (gap_denominator : ℚ)) / (gap_denominator : ℚ) * 100
    hk_bound := match hk with
      | some h => if h = 0 then optimal else h
      | none => optimal
    wall_time_s := elapsed
    machine_info := P.machine_info
    compute_cost_usd := elapsed * P.cfg.aws_hourly_rate / 3600
    raw_trace := trace
    deviations := baseDeviations hk optimal
    cycles_explored := diag.1
    repair_path := diag.2 }

/-- The sentinel record built in the `except` branch (protocol.py lines
226-247). -/
def failureRecord (P : TitrationProtocol) (t : TrialSpec) (e : String) :
    ProtocolResult :=
  let optimal := (P.optimal_lengths t.instance_).getD 0
  let hk := P.hk_bounds t.instance_
  { instance_ := t.instance_
    integrator := t.integrator
    budget_s := t.budget_s
    seed := t.seed
    best_length := -1
    time_to_best_s := t.budget_s
    final_gap_pct := -1
    hk_bound := (P.hk_bounds t.instance_).getD 0
    wall_time_s := t.budget_s
    machine_info := P.machine_info
    compute_cost_usd := t.budget_s * P.cfg.aws_hourly_rate / 3600
    raw_trace := []
    deviations := baseDeviations hk optimal ++ ["Runtime error: " ++ e]
    cycles_explored := 0
    repair_path := "ERROR: " ++ e }

/-- `TitrationProtocol._run_single` (protocol.py lines 156-247).

The integrator-registry lookup `self.integrators[integrator_name]` happens
before the `try` block, so a missing name raises `KeyError` out of the
task (modelled as `.error`). Everything raised by `solver.solve` is
caught and converted into the sentinel `failureRecord`. -/
def run_single (P : TitrationProtocol) (t : TrialSpec) :
    Except String ProtocolResult :=
  match P.integrators t.integrator with
  | none => .error ("KeyError: " ++ t.integrator)
  | some solver =>
    match solver.solve (instancePath P t.instance_) t.budget_s t.seed
        P.cfg.candidate_k with
    | .ok (_tour, trace) => .ok (successRecord P t solver trace)
    | .error e => .ok (failureRecord P t e)

theorem run_single_eq_of_solve_ok (P : TitrationProtocol) (t : TrialSpec)
    (s : Solver) (tour : List ℤ) (trace : List (ℚ × ℤ))
    (hreg : P.integrators t.integrator = some s)
    (hs : s.solve (instancePath P t.instance_) t.budget_s t.seed
      P.cfg.candidate_k = .ok (tour, trace)) :
    run_single P t = .ok (successRecord P t s trace) := by
  simp only [run_single, hreg, hs]

theorem run_single_eq_of_solve_error (P : TitrationProtocol) (t : TrialSpec)
    (s : Solver) (e : String)
    (hreg : P.integrators t.integrator = some s)
    (hs : s.solve (instancePath P t.instance_) t.budget_s t.seed
      P.cfg.candidate_k = .error e) :
    run_single P t = .ok (failureRecord P t e) := by
  simp only [run_single, hreg, hs]

/-- The experiment grid built by the four nested loops of
`TitrationProtocol.run` (protocol.py lines 114-119), in enumeration
order. -/
def experiments (cfg : TitrationConfig) : List TrialSpec :=
  cfg.instances.flatMap fun i =>
    cfg.integrators.flatMap fun g =>
      cfg.budgets.flatMap fun b =>
        cfg.seeds.map fun s =>
          { instance_ := i, integrator := g, budget_s := b, seed := s }

/-- Collect one result per submitted task. A task whose `_run_single`
raised re-raises at the `future.result()` call (protocol.py line 129),
aborting `run`; otherwise all records are accumulated. Completion order of
the worker pool is nondeterministic, so the properties proved below about
the collected records are all invariant under permutation; the list here
is in submission order. -/
def collectResults (P : TitrationProtocol) :
    List TrialSpec → Except String (List ProtocolResult)
  | [] => .ok []
  | t :: ts =>
      match run_single P t with
      | .error e => .error e
      | .ok r =>
          match collectResults P ts with
          | .error e => .error e
          | .ok rs => .ok (r :: rs)

/-- `TitrationProtocol.run` (protocol.py lines 104-154), up to the
persistence step (modelled separately by `writeAuditLog`). -/
def TitrationProtocol.run (P : TitrationProtocol) :
    Except String (List ProtocolResult) :=
  collectResults P (experiments P.cfg)

/-- The key of a record, i.e. the `TrialSpec` it copies. -/
def keyOf (r : ProtocolResult) : TrialSpec :=
  { instance_ := r.instance_
    integrator := r.integrator
    budget_s := r.budget_s
    seed := r.seed }


theorem experiments_eq_product (cfg : TitrationConfig) :
    experiments cfg =
      (cfg.instances ×ˢ (cfg.integrators ×ˢ (cfg.budgets ×ˢ cfg.seeds))).map
        (fun x => { instance_ := x.1, integrator := x.2.1,
                    budget_s := x.2.2.1, seed := x.2.2.2 }) := by
  simp [experiments, SProd.sprod, List.product, List.map_flatMap,
    List.flatMap_map, List.map_map, Function.comp]
  rfl

theorem run_single_key (P : TitrationProtocol) (t : TrialSpec)
    (r : ProtocolResult) (h : run_single P t = .ok r) : keyOf r = t := by
  cases hl : P.integrators t.integrator with
  | none =>
      simp only [run_single, hl] at h
      exact absurd h (by simp)
  | some s =>
      cases hs : s.solve (instancePath P t.instance_) t.budget_s t.seed
          P.cfg.candidate_k with
      | ok v =>
          obtain ⟨tour, trace⟩ := v
          rw [run_single_eq_of_solve_ok P t s tour trace hl hs] at h
          injection h with h
          rw [← h]; rfl
      | error e =>
          rw [run_single_eq_of_solve_error P t s e hl hs] at h
          injection h with h
          rw [← h]; rfl

theorem run_single_isOk (P : TitrationProtocol) (t : TrialSpec)
    (h : (P.integrators t.integrator).isSome = true) :
    ∃ r, run_single P t = .ok r := by
  cases hl : P.integrators t.integrator with
  | none => rw [hl] at h; simp at h
  | some s =>
      cases hs : s.solve (instancePath P t.instance_) t.budget_s t.seed
          P.cfg.candidate_k with
      | ok v =>
          obtain ⟨tour, trace⟩ := v
          exact ⟨_, run_single_eq_of_solve_ok P t s tour trace hl hs⟩
      | error e =>
          exact ⟨_, run_single_eq_of_solve_error P t s e hl hs⟩

theorem collectResults_ok (P : TitrationProtocol) (ts : List TrialSpec)
    (h : ∀ t ∈ ts, (P.integrators t.integrator).isSome = true) :
    ∃ rs, collectResults P ts = .ok rs ∧ rs.map keyOf = ts := by
  induction ts with
  | nil => exact ⟨[], rfl, rfl⟩
  | cons t ts ih =>
      obtain ⟨r, hr⟩ := run_single_isOk P t (h t (by simp))
      obtain ⟨rs, hrs, hmap⟩ := ih (fun u hu => h u (by simp [hu]))
      refine ⟨r :: rs, ?_, ?_⟩
      · simp [collectResults, hr, hrs]
      · simp [hmap, run_single_key P t r hr]

theorem mem_experiments (cfg : TitrationConfig) (t : TrialSpec) :
    t ∈ experiments cfg ↔
      t.instance_ ∈ cfg.instances ∧ t.integrator ∈ cfg.integrators ∧
        t.budget_s ∈ cfg.budgets ∧ t.seed ∈ cfg.seeds := by
  rw [experiments_eq_product]
  rw [List.mem_map]
  constructor
  · rintro ⟨⟨i, g, b, s⟩, hmem, rfl⟩
    simp only [List.mem_product] at hmem
    exact ⟨hmem.1, hmem.2.1, hmem.2.2.1, hmem.2.2.2⟩
  · rintro ⟨hi, hg, hb, hs⟩
    refine ⟨(t.instance_, t.integrator, t.budget_s, t.seed), ?_, rfl⟩
    simp only [List.mem_product]
    exact ⟨hi, hg, hb, hs⟩

theorem experiments_length (cfg : TitrationConfig) :
    (experiments cfg).length =
      cfg.instances.length * cfg.integrators.length * cfg.budgets.length *
        cfg.seeds.length := by
  rw [experiments_eq_product]
  simp [List.length_product, Nat.mul_assoc]

theorem experiments_nodup (cfg : TitrationConfig)
    (hi : cfg.instances.Nodup) (hg : cfg.integrators.Nodup)
    (hb : cfg.budgets.Nodup) (hs : cfg.seeds.Nodup) :
    (experiments cfg).Nodup := by
  rw [experiments_eq_product]
  refine List.Nodup.map ?_ (hi.product (hg.product (hb.product hs)))
  rintro ⟨i, g, b, s⟩ ⟨i2, g2, b2, s2⟩ h
  simp [TrialSpec.mk.injEq] at h
  simp [h.1, h.2.1, h.2.2.1, h.2.2.2]


/-- Shared concrete fixture: a machine descriptor as `json.load` would
produce it. -/
def sampleMachine : PVal :=
  .pdict [("cpu", .pstr "test-cpu"), ("cores", .pint 6)]

/-- Shared fixture: a solver whose `solve` always raises. -/
def failingSolver : Solver :=
  { solve := fun _ _ _ _ => .error "solver crashed"
    diagnostics := .error "no run yet" }

/-- Shared fixture: a solver succeeding with a one-checkpoint trace. -/
def okSolver : Solver :=
  { solve := fun _ _ _ _ => .ok ([0, 1, 2], [(2, 430)])
    diagnostics := .ok (some 7, some "lkh-path") }

/-- Shared fixture: a solver that succeeds but returns an empty trace. -/
def emptyTraceSolver : Solver :=
  { solve := fun _ _ _ _ => .ok ([], [])
    diagnostics := .ok (none, none) }

/-- Shared fixture: a small valid configuration (5 seeds, one instance,
one budget, the registered integrator name `"lkh"`). -/
def sampleCfg : TitrationConfig :=
  { tsplib_dir := "data/tsplib"
    instances := ["eil51"]
    integrators := ["lkh"]
    budgets := [10]
    seeds := [41, 42, 43, 44, 45]
    candidate_k := 30
    aws_hourly_rate := 0 }

/-- Shared fixture: a protocol object over `sampleCfg` whose registry maps
`"lkh"` to the given solver, mirroring `_build_integrators`. -/
def sampleProtocol (s : Solver) : TitrationProtocol :=
  { cfg := sampleCfg
    machine_info := sampleMachine
    hk_bounds := fun _ => none
    optimal_lengths := fun i => if i = "eil51" then some 429 else none
    integrators := fun n => if n = "lkh" then some s else none
    files := fun _ => true }

/-- Shared fixture: the same protocol object but configured with the
integrator name `"edge_rand"`, which `TitrationConfig` accepts and
`_validate_cfg` never checks, while `_build_integrators` registers only
`"lkh"`. -/
def badProtocol : TitrationProtocol :=
  { sampleProtocol failingSolver with
    cfg := { sampleCfg with integrators := ["edge_rand"] } }

/-- Shared fixture: the first trial of `sampleCfg`'s grid. -/
def sampleTrial : TrialSpec :=
  { instance_ := "eil51", integrator := "lkh", budget_s := 10, seed := 41 }

/-- C1 (amended): for every configuration that passes validation AND whose
configured integrator names are all registered in the integrator factory,
with duplicate-free configured lists, `run` returns a collection holding
exactly one `ResultRecord` per `TrialSpec` of the Cartesian product — the
count is `|instances|*|integrators|*|budgets|*|seeds|` and each key occurs
exactly once — regardless of how many individual trials fail (the solver
behavior is universally quantified, total failure included). -/
theorem c1_run_covers_grid (P : TitrationProtocol)
    (_hval : validate_cfg P = true)
    (hreg : ∀ g ∈ P.cfg.integrators, (P.integrators g).isSome = true)
    (hni : P.cfg.instances.Nodup) (hng : P.cfg.integrators.Nodup)
    (hnb : P.cfg.budgets.Nodup) (hns : P.cfg.seeds.Nodup) :
    ∃ rs, P.run = .ok rs ∧
      rs.length = P.cfg.instances.length * P.cfg.integrators.length *
        P.cfg.budgets.length * P.cfg.seeds.length ∧
      rs.map keyOf = experiments P.cfg ∧
      ∀ t ∈ experiments P.cfg, (rs.map keyOf).count t = 1 := by
  obtain ⟨rs, hok, hmap⟩ := collectResults_ok P (experiments P.cfg)
    (fun t ht => hreg t.integrator ((mem_experiments _ t).mp ht).2.1)
  refine ⟨rs, hok, ?_, hmap, ?_⟩
  · have hlen := congrArg List.length hmap
    rw [List.length_map] at hlen
    rw [hlen, experiments_length]
  · intro t ht
    rw [hmap]
    exact List.count_eq_one_of_mem (experiments_nodup _ hni hng hnb hns) ht

/-- C1 witness: the amended statement on `sampleProtocol failingSolver`,
where every single trial fails and yet all 5 grid records are produced. -/
theorem c1_run_covers_grid_witness :
    ∃ rs, (sampleProtocol failingSolver).run = .ok rs ∧
      rs.length = (sampleProtocol failingSolver).cfg.instances.length *
        (sampleProtocol failingSolver).cfg.integrators.length *
        (sampleProtocol failingSolver).cfg.budgets.length *
        (sampleProtocol failingSolver).cfg.seeds.length ∧
      rs.map keyOf = experiments (sampleProtocol failingSolver).cfg ∧
      ∀ t ∈ experiments (sampleProtocol failingSolver).cfg,
        (rs.map keyOf).count t = 1 :=
  c1_run_covers_grid (sampleProtocol failingSolver) rfl
    (by intro g hg; simp only [sampleProtocol, sampleCfg,
      List.mem_singleton] at hg; subst hg; rfl)
    (by simp [sampleProtocol, sampleCfg]) (by simp [sampleProtocol, sampleCfg])
    (by simp [sampleProtocol, sampleCfg]) (by decide)

/-- C1 counterexample: a configuration that passes `_validate_cfg` (5
seeds, resolvable instance file) but lists the unregistered integrator
name `"edge_rand"`: the very first task raises `KeyError` outside the
`try` block, `future.result()` re-raises it, and `run` aborts without
producing one record per `TrialSpec`, although the grid has 5 specs. -/
theorem c1_counterexample_unregistered_integrator :
    validate_cfg badProtocol = true ∧
      badProtocol.run = .error "KeyError: edge_rand" ∧
      (experiments badProtocol.cfg).length = 5 :=
  ⟨rfl, rfl, rfl⟩

/-- C4 (amended): for a trial whose integrator name is registered, any
failure raised by the solver call inside the `try` block is caught at the
task boundary and converted into a sentinel record — `best_length = -1`,
`final_gap_pct = -1.0`, `repair_path = "ERROR: <message>"`, deviations
extended with the error text — and the task returns a record instead of
raising. (The registry lookup itself runs before the `try` block and is
not covered: see the counterexample.) -/
theorem c4_solver_failure_degrades_to_sentinel (P : TitrationProtocol)
    (t : TrialSpec) (s : Solver) (e : String)
    (hreg : P.integrators t.integrator = some s)
    (hs : s.solve (instancePath P t.instance_) t.budget_s t.seed
      P.cfg.candidate_k = .error e) :
    ∃ r, run_single P t = .ok r ∧
      r.best_length = -1 ∧ r.final_gap_pct = -1 ∧
      r.repair_path = "ERROR: " ++ e ∧
      ("Runtime error: " ++ e) ∈ r.deviations := by
  refine ⟨failureRecord P t e,
    run_single_eq_of_solve_error P t s e hreg hs, rfl, rfl, rfl, ?_⟩
  simp [failureRecord]

/-- C4 witness: the amended statement at a concrete failing trial. -/
theorem c4_solver_failure_degrades_to_sentinel_witness :
    ∃ r, run_single (sampleProtocol failingSolver) sampleTrial = .ok r ∧
      r.best_length = -1 ∧ r.final_gap_pct = -1 ∧
      r.repair_path = "ERROR: " ++ "solver crashed" ∧
      ("Runtime error: " ++ "solver crashed") ∈ r.deviations :=
  c4_solver_failure_degrades_to_sentinel (sampleProtocol failingSolver)
    sampleTrial failingSolver "solver crashed" rfl rfl

/-- C4 counterexample: a "lookup failure" — the integrator name
`"edge_rand"` missing from the registry — is NOT caught at the task
boundary: `_run_single` raises `KeyError` instead of returning a sentinel
record, refuting the claim that failures of any kind (lookup failures
included) are converted at the task boundary. -/
theorem c4_counterexample_lookup_failure_raises :
    run_single badProtocol
        { instance_ := "eil51", integrator := "edge_rand", budget_s := 10,
          seed := 41 }
      = .error "KeyError: edge_rand" := rfl


/-- C5 supporting equality: the code's gap denominator (HK-or-optimal,
with 0 encoding a missing optimal, clamped at 1) coincides with the spec's
reference definition — HK bound if known, else known-optimal if known,
else 1, "clamped to avoid division by zero" — for every table state. -/
theorem spec_code_denominator_agree (hk : Option ℤ) (opt : Option ℤ) :
    specGapDenominator hk opt = gapDenominator hk (opt.getD 0) := by
  cases hk with
  | some h => rfl
  | none =>
      cases opt with
      | some o => rfl
      | none => rfl

theorem gapDenominator_pos (hk : Option ℤ) (optimal : ℤ) :
    0 < gapDenominator hk optimal := by
  cases hk with
  | some h =>
      show 0 < (if h ≤ 0 then 1 else h)
      split <;> omega
  | none =>
      show 0 < (if optimal ≤ 0 then 1 else optimal)
      split <;> omega

/-- C5 (amended): every record produced by a registered trial satisfies:
on solver success, `final_gap_pct = (best_length − D) / D × 100` where `D`
is the spec's reference denominator (HK bound if known, else known-optimal
if known, else 1, clamped), and `D > 0`; on solver failure,
`final_gap_pct = -1.0`. The claim's clause "final_gap_pct = -1.0 whenever
best_length = -1" is dropped: a successful solve with an empty trace gives
`best_length = -1` with a formula-computed gap (see the counterexample). -/
theorem c5_gap_follows_spec_denominator (P : TitrationProtocol)
    (t : TrialSpec) (s : Solver)
    (hreg : P.integrators t.integrator = some s) :
    (∀ tour trace,
      s.solve (instancePath P t.instance_) t.budget_s t.seed
          P.cfg.candidate_k = .ok (tour, trace) →
      ∃ r, run_single P t = .ok r ∧
        0 < specGapDenominator (P.hk_bounds t.instance_)
            (P.optimal_lengths t.instance_) ∧
        r.final_gap_pct =
          ((r.best_length : ℚ) -
              (specGapDenominator (P.hk_bounds t.instance_)
                (P.optimal_lengths t.instance_) : ℚ)) /
            (specGapDenominator (P.hk_bounds t.instance_)
              (P.optimal_lengths t.instance_) : ℚ) * 100) ∧
    (∀ e, s.solve (instancePath P t.instance_) t.budget_s t.seed
        P.cfg.candidate_k = .error e →
      ∃ r, run_single P t = .ok r ∧ r.final_gap_pct = -1) := by
  constructor
  · intro tour trace hs
    refine ⟨successRecord P t s trace,
      run_single_eq_of_solve_ok P t s tour trace hreg hs, ?_, ?_⟩
    · rw [spec_code_denominator_agree]
      exact gapDenominator_pos _ _
    · rw [spec_code_denominator_agree]
      rfl
  · intro e hs
    exact ⟨failureRecord P t e,
      run_single_eq_of_solve_error P t s e hreg hs, rfl⟩

/-- C5 witness: the amended statement at a concrete successful trial. -/
theorem c5_gap_follows_spec_denominator_witness :
    ∃ r, run_single (sampleProtocol okSolver) sampleTrial = .ok r ∧
      0 < specGapDenominator
          ((sampleProtocol okSolver).hk_bounds sampleTrial.instance_)
          ((sampleProtocol okSolver).optimal_lengths sampleTrial.instance_) ∧
      r.final_gap_pct =
        ((r.best_length : ℚ) -
            (specGapDenominator
              ((sampleProtocol okSolver).hk_bounds sampleTrial.instance_)
              ((sampleProtocol okSolver).optimal_lengths
                sampleTrial.instance_) : ℚ)) /
          (specGapDenominator
            ((sampleProtocol okSolver).hk_bounds sampleTrial.instance_)
            ((sampleProtocol okSolver).optimal_lengths
              sampleTrial.instance_) : ℚ) * 100 :=
  (c5_gap_follows_spec_denominator (sampleProtocol okSolver) sampleTrial
    okSolver rfl).1 [0, 1, 2] [(2, 430)] rfl

/-- C5 counterexample: a solver that succeeds with an empty trace produces
`best_length = -1` (the failure sentinel) while `final_gap_pct` is the
formula value `(-1 - 429) / 429 × 100 ≠ -1.0`, refuting "final_gap_pct
equals -1.0 whenever best_length is the failure sentinel -1". -/
theorem c5_counterexample_empty_trace :
    ∃ r, run_single (sampleProtocol emptyTraceSolver) sampleTrial = .ok r ∧
      r.best_length = -1 ∧ r.final_gap_pct ≠ -1 := by
  refine ⟨successRecord (sampleProtocol emptyTraceSolver) sampleTrial
    emptyTraceSolver [],
    run_single_eq_of_solve_ok _ _ emptyTraceSolver [] [] rfl rfl, rfl, ?_⟩
  show ((((-1 : ℤ) : ℚ) - ((gapDenominator none 429 : ℤ) : ℚ)) /
      ((gapDenominator none 429 : ℤ) : ℚ) * 100) ≠ -1
  norm_num [gapDenominator]

/-- C10 (confirmed): in every record a trial task returns — success or
failure — `wall_time_s` equals `time_to_best_s`: on success both are the
first checkpoint's elapsed time (or the budget for an empty trace), on
failure both are the configured budget. -/
theorem c10_wall_time_eq_time_to_best (P : TitrationProtocol)
    (t : TrialSpec) (r : ProtocolResult)
    (h : run_single P t = .ok r) : r.wall_time_s = r.time_to_best_s := by
  cases hl : P.integrators t.integrator with
  | none =>
      simp only [run_single, hl] at h
      exact absurd h (by simp)
  | some s =>
      cases hs : s.solve (instancePath P t.instance_) t.budget_s t.seed
          P.cfg.candidate_k with
      | ok v =>
          obtain ⟨tour, trace⟩ := v
          rw [run_single_eq_of_solve_ok P t s tour trace hl hs] at h
          injection h with h
          rw [← h]; rfl
      | error e =>
          rw [run_single_eq_of_solve_error P t s e hl hs] at h
          injection h with h
          rw [← h]; rfl

/-- C10 witness: the invariant at a concrete successful trial. -/
theorem c10_wall_time_eq_time_to_best_witness :
    ∃ r, run_single (sampleProtocol okSolver) sampleTrial = .ok r ∧
      r.wall_time_s = r.time_to_best_s :=
  ⟨_, run_single_eq_of_solve_ok (sampleProtocol okSolver) sampleTrial
      okSolver [0, 1, 2] [(2, 430)] rfl rfl,
    c10_wall_time_eq_time_to_best (sampleProtocol okSolver) sampleTrial _
      (run_single_eq_of_solve_ok (sampleProtocol okSolver) sampleTrial
        okSolver [0, 1, 2] [(2, 430)] rfl rfl)⟩


/-- Shared fixture: an opaque p-value collaborator for the general branch
(used where the claim does not depend on the p-value's value). -/
def anyP : List ℚ → List ℚ → Except String ℚ := fun _ _ => .ok 0

/-- Shared fixture: an opaque bootstrap collaborator. -/
def anyCI : List ℚ → List ℚ → ℚ × ℚ := fun _ _ => (0, 0)

/-- C2 counterexample: `paired_comparison([5,5,5], [9,9,9])` takes the
perfect-separation branch and returns `protocol_compliant = True` with
`n_samples = 3 < 30`: compliance does not imply all three gate conditions,
refuting "protocol_compliant is true iff n ≥ 30 ∧ p < 0.001 ∧ |δ| > 0.1"
as a statement about every produced StatisticalResult. -/
theorem c2_counterexample_separation_ignores_n :
    paired_comparison anyP anyCI [5, 5, 5] [9, 9, 9] "i" "a" "b"
        = .ok (perfectSeparationResult "i" "a" "b" 3) ∧
      (perfectSeparationResult "i" "a" "b" 3).protocol_compliant = true ∧
      ¬(30 ≤ (perfectSeparationResult "i" "a" "b" 3).n_samples) :=
  ⟨rfl, rfl, by decide⟩

/-- C2 (amended): for every StatisticalResult produced by the GENERAL
branch of `paired_comparison` — both sequences contain at least two
distinct values, so the degenerate-variance policy does not apply —
`protocol_compliant` is true iff all three gate conditions hold:
`n_samples ≥ 30`, `p_value < 0.001` and `|effect_size| > 0.1`; two out of
three never suffice. In the degenerate branches compliance is instead
fixed by the policy (False for equal constants, True for separation)
regardless of `n_samples`. -/
theorem c2_compliance_gate_conjunctive
    (wil : List ℚ → List ℚ → Except String ℚ)
    (boot : List ℚ → List ℚ → ℚ × ℚ)
    (a b : List ℚ) (inst ia ib : String) (r : StatisticalResult)
    (ha : oneDistinct a = false) (hb : oneDistinct b = false)
    (h : paired_comparison wil boot a b inst ia ib = .ok r) :
    r.protocol_compliant = true ↔
      (30 ≤ r.n_samples ∧ r.p_value < 1 / 1000 ∧
        1 / 10 < |r.effect_size_cliffs_delta|) := by
  unfold paired_comparison at h
  rw [ha, hb] at h
  simp only [Bool.or_self, Bool.false_and, if_false] at h
  cases hw : wil a b with
  | error e => rw [hw] at h; exact absurd h (by simp)
  | ok p =>
      rw [hw] at h
      injection h with h
      rw [← h]
      simp only [generalBranchResult, Bool.and_eq_true, decide_eq_true_eq]
      tauto

/-- C2 witness: the amended gate at a concrete general-branch input with
`n = 2 < 30` (so compliance is false despite the perfect effect size). -/
theorem c2_compliance_gate_conjunctive_witness :
    ∃ r, paired_comparison anyP anyCI [1, 2] [3, 4] "i" "a" "b" = .ok r ∧
      (r.protocol_compliant = true ↔
        (30 ≤ r.n_samples ∧ r.p_value < 1 / 1000 ∧
          1 / 10 < |r.effect_size_cliffs_delta|)) :=
  ⟨_, rfl, c2_compliance_gate_conjunctive anyP anyCI [1, 2] [3, 4]
    "i" "a" "b" _ rfl rfl rfl⟩


/-- Shared fixture: an opaque plain p-value collaborator (for plugging
into `scipyWilcoxon`). -/
def anyPV : List ℚ → List ℚ → ℚ := fun _ _ => 0

/-- C3 counterexample: `paired_comparison([9,9,9], [5,5,5])` returns
`effect_size = +1.0`, yet the direction of separation on this data (as
measured by the code's own `cliffs_delta`) is `-1`: the sign of the
degenerate branch's effect size does NOT match the direction of
separation, it is the hard-coded literal `1.0`. -/
theorem c3_counterexample_separation_sign :
    paired_comparison anyP anyCI [9, 9, 9] [5, 5, 5] "i" "a" "b"
        = .ok (perfectSeparationResult "i" "a" "b" 3) ∧
      (perfectSeparationResult "i" "a" "b" 3).effect_size_cliffs_delta = 1 ∧
      cliffs_delta [9, 9, 9] [5, 5, 5] = -1 := by
  refine ⟨rfl, rfl, ?_⟩
  norm_num [cliffs_delta, cliffsNumerator, List.foldl]

/-- C3 (amended): the degenerate-variance policy applies exactly when AT
LEAST ONE sequence is internally constant (not only when both are):
* both constant with equal constants → `{p=1.0, δ=0.0, ci=(0,0),
  compliant=False}`;
* otherwise (at least one constant, but not both-with-equal-constants) →
  the separation sentinel `{p=1e-15, δ=+1.0 (sign-free), ci=(0,0),
  compliant=True}` — even when the other sequence is non-constant;
* only when both sequences contain two distinct values is the general
  computation (signed-rank p, Cliff's delta on the data, bootstrap CI)
  used. -/
theorem c3_degenerate_policy_trigger
    (wil : List ℚ → List ℚ → Except String ℚ)
    (boot : List ℚ → List ℚ → ℚ × ℚ)
    (a b : List ℚ) (inst ia ib : String)
    (_hlen : a.length = b.length) :
    (InternallyConstant a ∧ InternallyConstant b ∧ a.head? = b.head? →
      paired_comparison wil boot a b inst ia ib
        = .ok (equalConstantsResult inst ia ib a.length)) ∧
    ((InternallyConstant a ∨ InternallyConstant b) →
      ¬(InternallyConstant a ∧ InternallyConstant b ∧ a.head? = b.head?) →
      paired_comparison wil boot a b inst ia ib
        = .ok (perfectSeparationResult inst ia ib a.length)) ∧
    (¬InternallyConstant a → ¬InternallyConstant b →
      paired_comparison wil boot a b inst ia ib
        = (wil a b).map (generalBranchResult boot a b inst ia ib)) := by
  refine ⟨?_, ?_, ?_⟩
  · rintro ⟨hca, hcb, hh⟩
    have ha : oneDistinct a = true := (oneDistinct_iff a).mpr hca
    have hb : oneDistinct b = true := (oneDistinct_iff b).mpr hcb
    simp [paired_comparison, ha, hb, hh]
  · intro hor hnot
    have houter : (oneDistinct a || oneDistinct b) = true := by
      rcases hor with hca | hcb
      · simp [(oneDistinct_iff a).mpr hca]
      · simp [(oneDistinct_iff b).mpr hcb]
    have hinner :
        (oneDistinct a && oneDistinct b && (a.head? == b.head?)) = false := by
      by_contra hne
      have : (oneDistinct a && oneDistinct b && (a.head? == b.head?))
          = true := by
        cases hx : (oneDistinct a && oneDistinct b && (a.head? == b.head?))
        · exact absurd hx hne
        · rfl
      simp only [Bool.and_eq_true, beq_iff_eq] at this
      exact hnot ⟨(oneDistinct_iff a).mp this.1.1,
        (oneDistinct_iff b).mp this.1.2, this.2⟩
    simp [paired_comparison, houter, hinner]
  · intro hna hnb
    have ha : oneDistinct a = false := by
      cases hx : oneDistinct a
      · rfl
      · exact absurd ((oneDistinct_iff a).mp hx) hna
    have hb : oneDistinct b = false := by
      cases hx : oneDistinct b
      · rfl
      · exact absurd ((oneDistinct_iff b).mp hx) hnb
    simp only [paired_comparison, ha, hb, Bool.or_self, Bool.false_and,
      if_false]
    cases hw : wil a b with
    | error e => rfl
    | ok p => rfl

/-- C3 witness: the separation branch fires on `([5,5,5], [9,9,9])`. -/
theorem c3_degenerate_policy_trigger_witness :
    paired_comparison anyP anyCI [5, 5, 5] [9, 9, 9] "ix" "aa" "bb"
      = .ok (perfectSeparationResult "ix" "aa" "bb" 3) :=
  (c3_degenerate_policy_trigger anyP anyCI [5, 5, 5] [9, 9, 9]
    "ix" "aa" "bb" rfl).2.1
    (Or.inl ⟨5, by simp, by intro x hx; simpa using hx⟩)
    (by rintro ⟨-, -, hh⟩; simp at hh)

/-- C8 counterexample: on `a = [1,2]`, `b = [1,2]` (equal-length,
non-empty, neither internally constant, all paired differences zero) the
degenerate-variance check does not fire, the call reaches
`scipy.stats.wilcoxon`, and scipy's documented `ValueError` for all-zero
differences propagates out of `paired_comparison`: the function raises
instead of producing a StatisticalResult. -/
theorem c8_counterexample_allzero_differences :
    paired_comparison (scipyWilcoxon anyPV) anyCI [1, 2] [1, 2] "i" "a" "b"
      = .error "zero_method wilcox and pratt do not work if x - y is zero for all elements" := by
  norm_num [paired_comparison, scipyWilcoxon, oneDistinct, List.dedup]

/-- C8 (amended): `paired_comparison` (with the wilcoxon collaborator
modelled after scipy) returns a StatisticalResult and never raises,
PROVIDED at least one sequence is internally constant or at least one
paired difference is nonzero; the remaining case — both sequences
non-constant with all paired differences zero — raises inside scipy (see
the counterexample). Degenerate data conditions themselves are recognized
cases with fully defined deterministic outputs. -/
theorem c8_total_outside_allzero_case
    (pv : List ℚ → List ℚ → ℚ) (boot : List ℚ → List ℚ → ℚ × ℚ)
    (a b : List ℚ) (inst ia ib : String)
    (h : InternallyConstant a ∨ InternallyConstant b ∨
      ∃ d ∈ List.zipWith (fun x y => x - y) a b, d ≠ 0) :
    ∃ r, paired_comparison (scipyWilcoxon pv) boot a b inst ia ib
      = .ok r := by
  unfold paired_comparison
  cases houter : (oneDistinct a || oneDistinct b) with
  | true =>
      cases hinner : (oneDistinct a && oneDistinct b
          && (a.head? == b.head?)) with
      | true => exact ⟨_, rfl⟩
      | false => exact ⟨_, rfl⟩
  | false =>
      have hna : oneDistinct a = false := by
        cases hx : oneDistinct a
        · rfl
        · rw [hx] at houter; simp at houter
      have hnb : oneDistinct b = false := by
        cases hx : oneDistinct b
        · rfl
        · rw [hx] at houter; simp at houter
      obtain ⟨d, hd, hdne⟩ : ∃ d ∈ List.zipWith (fun x y => x - y) a b,
          d ≠ 0 := by
        rcases h with hca | hcb | hz
        · exact absurd ((oneDistinct_iff a).mpr hca) (by rw [hna]; simp)
        · exact absurd ((oneDistinct_iff b).mpr hcb) (by rw [hnb]; simp)
        · exact hz
      have hall : ((List.zipWith (fun x y => x - y) a b).all
          (fun d => d == 0)) = false := by
        cases hx : ((List.zipWith (fun x y => x - y) a b).all
            (fun d => d == 0))
        · rfl
        · rw [List.all_eq_true] at hx
          exact absurd (by simpa using hx d hd) hdne
      simp only [houter, if_false, Bool.false_eq_true]
      rw [scipyWilcoxon, if_neg (by rw [hall]; simp)]
      exact ⟨_, rfl⟩

/-- C8 witness: totality at `a = [1,2]`, `b = [2,1]` (non-degenerate,
nonzero differences). -/
theorem c8_total_outside_allzero_case_witness :
    ∃ r, paired_comparison (scipyWilcoxon anyPV) anyCI [1, 2] [2, 1]
      "i" "a" "b" = .ok r :=
  c8_total_outside_allzero_case anyPV anyCI [1, 2] [2, 1] "i" "a" "b"
    (Or.inr (Or.inr ⟨-1, by norm_num, by norm_num⟩))


/-! ## Summary aggregation (`bee_tsp/titration/analysis.py`) -/

/-- A row of the results DataFrame, restricted to the columns
`compute_summary_statistics` reads. -/
structure AnalysisRow where
  instance_ : String
  integrator : String
  final_gap_pct : ℚ
  compute_cost_usd : ℚ

/-- A row of the summary DataFrame (analysis.py lines 31-39). -/
structure SummaryRow where
  instance_ : String
  integrator : String
  median_gap : ℚ
  gap_ci_95 : ℚ × ℚ
  median_cost : ℚ
  cost_ci_95 : ℚ × ℚ
  n_runs : ℕ
deriving DecidableEq, Repr

/-- Model of a numpy random generator: `init seed` is
`np.random.default_rng(seed)`, `choice st data k` is
`rng.choice(data, size=k, replace=True)` returning the sample and the
advanced generator state. Opaque: any instantiation is allowed. -/
structure RngModel where
  init : ℕ → ℕ
  choice : ℕ → List ℚ → ℕ → List ℚ × ℕ

/-- Insertion of one element into a sorted list (ascending). -/
def insertSorted (x : ℚ) : List ℚ → List ℚ
  | [] => [x]
  | y :: ys => if x ≤ y then x :: y :: ys else y :: insertSorted x ys

/-- Ascending sort, used to model numpy's order statistics. -/
def sortQ (l : List ℚ) : List ℚ :=
  l.foldr insertSorted []

/-- `np.percentile(l, q)` with the default linear interpolation: the value
at fractional rank `q/100 * (n-1)` of the sorted data. -/
def npPercentile (l : List ℚ) (q : ℚ) : ℚ :=
  let s := sortQ l
  let n := s.length
  let pos : ℚ := q / 100 * ((n : ℚ) - 1)
  let i : ℕ := pos.floor.toNat
  let xi := s.getD i 0
  let xi1 := s.getD (i + 1) xi
  xi + (pos - (i : ℚ)) * (xi1 - xi)

/-- `np.median(l)`: the 50th percentile (middle element for odd length,
mean of the two middle elements for even length). -/
def npMedian (l : List ℚ) : ℚ :=
  npPercentile l 50

/-- The resampling loop of `bootstrap_ci` (analysis.py lines 52-54):
draw `k` resamples from `data` with replacement and record each resample's
median, threading the generator state. -/
def resampleMedians (G : RngModel) (data : List ℚ) :
    ℕ → ℕ → List ℚ × ℕ
  | 0, st => ([], st)
  | k + 1, st =>
      let sc := G.choice st data data.length
      let rest := resampleMedians G data k sc.2
      (npMedian sc.1 :: rest.1, rest.2)

/-- `bootstrap_ci` (analysis.py lines 44-60). The generator is created
fresh from the constant seed 42 inside every call
(`rng = np.random.default_rng(42)`); short data short-circuits before any
resampling. -/
def bootstrap_ci (G : RngModel) (data : List ℚ) (n_resamples : ℕ)
    (confidence : ℚ) : ℚ × ℚ :=
  if data.length < 2 then
    if data.length = 1 then (data.getD 0 0, data.getD 0 0) else (0, 0)
  else
    let st := G.init 42
    let estimates := (resampleMedians G data n_resamples st).1
    let alpha := 1 - confidence
    (npPercentile estimates (100 * alpha / 2),
     npPercentile estimates (100 * (1 - alpha / 2)))

/-- `bootstrap_ci` as it acts on the process's ambient numpy random state:
the function builds its own seeded generator and never reads or writes the
ambient state (unlike `StatisticalEnforcer.bootstrap_ci`, which calls
`np.random.choice` on the ambient generator). -/
def bootstrapCiAmbient (G : RngModel) (data : List ℚ) (n_resamples : ℕ)
    (confidence : ℚ) (amb : ℕ) : (ℚ × ℚ) × ℕ :=
  (bootstrap_ci G data n_resamples confidence, amb)

/-- `unique()` of a pandas column: first-occurrence order. -/
def uniqueFirst (l : List String) : List String :=
  l.foldl (fun acc x => if x ∈ acc then acc else acc ++ [x]) []

/-- One summary row for one `(instance, integrator)` group (analysis.py
lines 22-39), threading the ambient random state through the two
bootstrap calls. -/
def summaryRow (G : RngModel) (int_data : List AnalysisRow)
    (inst integ : String) (amb : ℕ) : SummaryRow × ℕ :=
  let gaps := int_data.map (fun r => r.final_gap_pct)
  let costs := int_data.map (fun r => r.compute_cost_usd)
  let g := bootstrapCiAmbient G gaps 1000 (95 / 100) amb
  let c := bootstrapCiAmbient G costs 1000 (95 / 100) g.2
  ({ instance_ := inst
     integrator := integ
     median_gap := npMedian gaps
     gap_ci_95 := g.1
     median_cost := npMedian costs
     cost_ci_95 := c.1
     n_runs := gaps.length }, c.2)

/-- Inner loop of `compute_summary_statistics`: one row per integrator
present in the instance's rows. -/
def summaryRowsForInstance (G : RngModel) (inst_data : List AnalysisRow)
    (inst : String) : List String → ℕ → List SummaryRow × ℕ
  | [], amb => ([], amb)
  | integ :: rest, amb =>
      let int_data := inst_data.filter (fun r => r.integrator == integ)
      let row := summaryRow G int_data inst integ amb
      let rows := summaryRowsForInstance G inst_data inst rest row.2
      (row.1 :: rows.1, rows.2)

/-- Outer loop of `compute_summary_statistics` over instances. -/
def summaryRowsForInstances (G : RngModel) (df : List AnalysisRow) :
    List String → ℕ → List SummaryRow × ℕ
  | [], amb => ([], amb)
  | inst :: rest, amb =>
      let inst_data := df.filter (fun r => r.instance_ == inst)
      let rows := summaryRowsForInstance G inst_data inst
        (uniqueFirst (inst_data.map (fun r => r.integrator))) amb
      let more := summaryRowsForInstances G df rest rows.2
      (rows.1 ++ more.1, more.2)

/-- `compute_summary_statistics` (analysis.py lines 11-41) as a function
of the input DataFrame and the ambient numpy random state. -/
def compute_summary_statistics (G : RngModel) (df : List AnalysisRow)
    (amb : ℕ) : List SummaryRow × ℕ :=
  summaryRowsForInstances G df (uniqueFirst (df.map (fun r => r.instance_)))
    amb

theorem summaryRow_amb (G : RngModel) (int_data : List AnalysisRow)
    (inst integ : String) (amb : ℕ) :
    summaryRow G int_data inst integ amb
      = ((summaryRow G int_data inst integ 0).1, amb) := rfl

theorem summaryRowsForInstance_amb (G : RngModel)
    (inst_data : List AnalysisRow) (inst : String) (l : List String)
    (amb1 amb2 : ℕ) :
    (summaryRowsForInstance G inst_data inst l amb1).1
        = (summaryRowsForInstance G inst_data inst l amb2).1 ∧
      (summaryRowsForInstance G inst_data inst l amb1).2 = amb1 := by
  induction l generalizing amb1 amb2 with
  | nil => exact ⟨rfl, rfl⟩
  | cons integ rest ih =>
      constructor
      · show (summaryRow _ _ _ _ _).1 :: _ = (summaryRow _ _ _ _ _).1 :: _
        rw [summaryRow_amb G _ inst integ amb1,
          summaryRow_amb G _ inst integ amb2]
        exact congrArg _ (ih amb1 amb2).1
      · show (summaryRowsForInstance G inst_data inst rest
            (summaryRow _ _ _ _ amb1).2).2 = amb1
        rw [summaryRow_amb G _ inst integ amb1]
        exact (ih amb1 amb1).2

theorem summaryRowsForInstances_amb (G : RngModel) (df : List AnalysisRow)
    (l : List String) (amb1 amb2 : ℕ) :
    (summaryRowsForInstances G df l amb1).1
        = (summaryRowsForInstances G df l amb2).1 ∧
      (summaryRowsForInstances G df l amb1).2 = amb1 := by
  induction l generalizing amb1 amb2 with
  | nil => exact ⟨rfl, rfl⟩
  | cons inst rest ih =>
      constructor
      · show (summaryRowsForInstance G _ inst _ amb1).1 ++ _
            = (summaryRowsForInstance G _ inst _ amb2).1 ++ _
        rw [(summaryRowsForInstance_amb G _ inst _ amb1 amb2).1]
        have h1 := (summaryRowsForInstance_amb G
          (df.filter (fun r => r.instance_ == inst)) inst
          (uniqueFirst ((df.filter (fun r => r.instance_ == inst)).map
            (fun r => r.integrator))) amb1 amb1).2
        have h2 := (summaryRowsForInstance_amb G
          (df.filter (fun r => r.instance_ == inst)) inst
          (uniqueFirst ((df.filter (fun r => r.instance_ == inst)).map
            (fun r => r.integrator))) amb2 amb2).2
        rw [h1, h2] at *
        exact congrArg _ (ih amb1 amb2).1
      · show (summaryRowsForInstances G df rest
            (summaryRowsForInstance G _ inst _ amb1).2).2 = amb1
        rw [(summaryRowsForInstance_amb G _ inst _ amb1 amb1).2]
        exact (ih amb1 amb1).2

/-- C9 (confirmed): `compute_summary_statistics` is deterministic — it
neither reads nor advances the ambient numpy random state, because
`bootstrap_ci` reseeds its own generator (`default_rng(42)`) on every
invocation. Consequently a second invocation over identical data (run
from whatever ambient state the first left behind) produces exactly the
same summary rows, for every generator model, input DataFrame and pair of
ambient states. -/
theorem c9_summary_rows_reproducible (G : RngModel) (df : List AnalysisRow)
    (amb1 amb2 : ℕ) :
    (compute_summary_statistics G df amb1).1
        = (compute_summary_statistics G df amb2).1 ∧
      (compute_summary_statistics G df
          (compute_summary_statistics G df amb1).2).1
        = (compute_summary_statistics G df amb1).1 := by
  constructor
  · exact (summaryRowsForInstances_amb G df _ amb1 amb2).1
  · exact (summaryRowsForInstances_amb G df _ _ amb1).1


/-! ## Audit-log serialization (`protocol.py` lines 138-151) -/

mutual
/-- Net effect of `json.loads(json.dumps(v))` on a Python value: JSON has
only arrays, so Python tuples serialize as arrays and parse back as
lists; every other shape and every atom round-trips unchanged (CPython
round-trips finite floats exactly). -/
def jsonRoundTrip : PVal → PVal
  | .pnull => .pnull
  | .pbool b => .pbool b
  | .pint n => .pint n
  | .pfloat q => .pfloat q
  | .pstr s => .pstr s
  | .plist xs => .plist (jsonRoundTripL xs)
  | .ptuple xs => .plist (jsonRoundTripL xs)
  | .pdict kvs => .pdict (jsonRoundTripKV kvs)

def jsonRoundTripL : List PVal → List PVal
  | [] => []
  | x :: xs => jsonRoundTrip x :: jsonRoundTripL xs

def jsonRoundTripKV : List (String × PVal) → List (String × PVal)
  | [] => []
  | kv :: kvs => (kv.1, jsonRoundTrip kv.2) :: jsonRoundTripKV kvs
end

mutual
/-- A Python value containing no tuple anywhere (e.g. anything produced by
`json.load`, such as the machine descriptor). -/
def tupleFree : PVal → Bool
  | .pnull => true
  | .pbool _ => true
  | .pint _ => true
  | .pfloat _ => true
  | .pstr _ => true
  | .plist xs => tupleFreeL xs
  | .ptuple _ => false
  | .pdict kvs => tupleFreeKV kvs

def tupleFreeL : List PVal → Bool
  | [] => true
  | x :: xs => tupleFree x && tupleFreeL xs

def tupleFreeKV : List (String × PVal) → Bool
  | [] => true
  | kv :: kvs => tupleFree kv.2 && tupleFreeKV kvs
end

mutual
theorem jsonRoundTrip_id (v : PVal) (h : tupleFree v = true) :
    jsonRoundTrip v = v := by
  cases v with
  | pnull => rfl
  | pbool b => rfl
  | pint n => rfl
  | pfloat q => rfl
  | pstr s => rfl
  | plist xs =>
      rw [jsonRoundTrip, jsonRoundTripL_id xs (by simpa [tupleFree] using h)]
  | ptuple xs => simp [tupleFree] at h
  | pdict kvs =>
      rw [jsonRoundTrip, jsonRoundTripKV_id kvs (by simpa [tupleFree] using h)]

theorem jsonRoundTripL_id (xs : List PVal) (h : tupleFreeL xs = true) :
    jsonRoundTripL xs = xs := by
  cases xs with
  | nil => rfl
  | cons x xs =>
      rw [tupleFreeL, Bool.and_eq_true] at h
      rw [jsonRoundTripL, jsonRoundTrip_id x h.1, jsonRoundTripL_id xs h.2]

theorem jsonRoundTripKV_id (kvs : List (String × PVal))
    (h : tupleFreeKV kvs = true) : jsonRoundTripKV kvs = kvs := by
  cases kvs with
  | nil => rfl
  | cons kv kvs =>
      rw [tupleFreeKV, Bool.and_eq_true] at h
      rw [jsonRoundTripKV, jsonRoundTrip_id kv.2 h.1,
        jsonRoundTripKV_id kvs h.2]
end

/-- `result.__dict__` as serialized by `json.dumps` (protocol.py line
146): all 15 fields in declaration order; `raw_trace` is a list of
`(elapsed_seconds, tour_length)` tuples. -/
def pyDict (r : ProtocolResult) : PVal :=
  .pdict
    [("instance", .pstr r.instance_),
     ("integrator", .pstr r.integrator),
     ("budget_s", .pfloat r.budget_s),
     ("seed", .pint r.seed),
     ("best_length", .pint r.best_length),
     ("time_to_best_s", .pfloat r.time_to_best_s),
     ("final_gap_pct", .pfloat r.final_gap_pct),
     ("hk_bound", .pint r.hk_bound),
     ("wall_time_s", .pfloat r.wall_time_s),
     ("machine_info", r.machine_info),
     ("compute_cost_usd", .pfloat r.compute_cost_usd),
     ("raw_trace",
       .plist (r.raw_trace.map fun c => .ptuple [.pfloat c.1, .pint c.2])),
     ("deviations", .plist (r.deviations.map PVal.pstr)),
     ("cycles_explored", .pint r.cycles_explored),
     ("repair_path", .pstr r.repair_path)]

/-- What `json.loads` of the serialized record line yields: identical to
`pyDict` except that each trace checkpoint comes back as a two-element
list instead of a tuple. -/
def pyDictReparsed (r : ProtocolResult) : PVal :=
  .pdict
    [("instance", .pstr r.instance_),
     ("integrator", .pstr r.integrator),
     ("budget_s", .pfloat r.budget_s),
     ("seed", .pint r.seed),
     ("best_length", .pint r.best_length),
     ("time_to_best_s", .pfloat r.time_to_best_s),
     ("final_gap_pct", .pfloat r.final_gap_pct),
     ("hk_bound", .pint r.hk_bound),
     ("wall_time_s", .pfloat r.wall_time_s),
     ("machine_info", r.machine_info),
     ("compute_cost_usd", .pfloat r.compute_cost_usd),
     ("raw_trace",
       .plist (r.raw_trace.map fun c => .plist [.pfloat c.1, .pint c.2])),
     ("deviations", .plist (r.deviations.map PVal.pstr)),
     ("cycles_explored", .pint r.cycles_explored),
     ("repair_path", .pstr r.repair_path)]

theorem jsonRoundTripL_trace (l : List (ℚ × ℤ)) :
    jsonRoundTripL (l.map fun c => PVal.ptuple [.pfloat c.1, .pint c.2])
      = l.map fun c => PVal.plist [.pfloat c.1, .pint c.2] := by
  induction l with
  | nil => rfl
  | cons c l ih =>
      rw [List.map_cons, List.map_cons, jsonRoundTripL, ih]
      rfl

theorem jsonRoundTripL_strs (l : List String) :
    jsonRoundTripL (l.map PVal.pstr) = l.map PVal.pstr := by
  induction l with
  | nil => rfl
  | cons s l ih =>
      rw [List.map_cons, jsonRoundTripL.eq_def]
      dsimp only
      rw [ih, jsonRoundTrip.eq_def]

/-- Helper: the computed form of the round-trip of a serialized record —
identical to the original dict except that trace tuples come back as
lists. -/
theorem pyDict_roundTrip (r : ProtocolResult)
    (hm : tupleFree r.machine_info = true) :
    jsonRoundTrip (pyDict r) = pyDictReparsed r := by
  rw [pyDict, pyDictReparsed, jsonRoundTrip]
  rw [jsonRoundTripKV, jsonRoundTripKV, jsonRoundTripKV, jsonRoundTripKV,
    jsonRoundTripKV, jsonRoundTripKV, jsonRoundTripKV, jsonRoundTripKV,
    jsonRoundTripKV, jsonRoundTripKV, jsonRoundTripKV, jsonRoundTripKV,
    jsonRoundTripKV, jsonRoundTripKV, jsonRoundTripKV, jsonRoundTripKV]
  rw [jsonRoundTrip_id r.machine_info hm]
  show PVal.pdict _ = PVal.pdict _
  simp only [jsonRoundTrip, jsonRoundTripL_trace, jsonRoundTripL_strs]

/-- C6 (amended): serializing a `ResultRecord` to an audit-log line and
re-parsing it reproduces every field except for an encoding artifact in
`raw_trace`: each `(elapsed_seconds, tour_length)` checkpoint comes back
as a two-element LIST with the same values in the same order, because
JSON has no tuples — so the round-trip is not the identity on the record
dict (tuples ≠ lists in Python), but is the identity on every other field
and on the numeric content and order of the trace. (For `machine_info`,
which `json.load` produced, tuple-freedom is the standing hypothesis.) -/
theorem c6_roundtrip_reproduces_fields_up_to_trace_lists
    (r : ProtocolResult) (hm : tupleFree r.machine_info = true) :
    jsonRoundTrip (pyDict r) = pyDictReparsed r :=
  pyDict_roundTrip r hm

/-- Shared fixture: a concrete record with a one-checkpoint trace. -/
def sampleRecord : ProtocolResult :=
  { instance_ := "eil51"
    integrator := "lkh"
    budget_s := 10
    seed := 41
    best_length := 430
    time_to_best_s := 2
    final_gap_pct := 0
    hk_bound := 429
    wall_time_s := 2
    machine_info := sampleMachine
    compute_cost_usd := 0
    raw_trace := [(2, 430)]
    deviations := ["HK bound not computed; using optimal = 429"]
    cycles_explored := 7
    repair_path := "lkh-path" }

/-- C6 witness: the amended round-trip equality at `sampleRecord`. -/
theorem c6_roundtrip_reproduces_fields_witness :
    jsonRoundTrip (pyDict sampleRecord) = pyDictReparsed sampleRecord :=
  c6_roundtrip_reproduces_fields_up_to_trace_lists sampleRecord
    (by simp [sampleRecord, sampleMachine, tupleFree, tupleFreeKV])

/-- C6 counterexample: on a record with a non-empty trace the round-trip
is NOT the identity: the reparsed `raw_trace` holds lists where the
original holds tuples, and Python's `==` distinguishes them. -/
theorem c6_counterexample_trace_tuples_become_lists :
    jsonRoundTrip (pyDict sampleRecord) ≠ pyDict sampleRecord := by
  intro h
  rw [pyDict_roundTrip sampleRecord
    (by simp [sampleRecord, sampleMachine, tupleFree, tupleFreeKV])] at h
  simp [pyDictReparsed, pyDict, sampleRecord] at h

/-- The fixed audit-log path of `TitrationProtocol.run` (protocol.py line
143): `results/minimal_audit.jsonl`, the same on every invocation. -/
def auditLogPath : String := "results/minimal_audit.jsonl"

/-- The persistence step of `run` (protocol.py lines 144-146):
`open(jsonl_path, "w")` — mode `"w"` truncates — then one serialized
record per line. Modelled on a file-system map from path to file content
(a list of serialized record lines). -/
def writeAuditLog (results : List ProtocolResult)
    (fs : String → Option (List PVal)) : String → Option (List PVal) :=
  fun p => if p = auditLogPath then some (results.map pyDict) else fs p

/-- C7: the persistence step of a later `run()` REPLACES the log file
written by an earlier `run()` — writing results `rs2` after `rs1` leaves
the file system exactly as if `rs1` had never been written, because the
log path is fixed and the file is opened with mode `"w"`. This refutes
"the log content written by a previous run() invocation is left unchanged
by any later run() invocation". -/
theorem c7_later_run_overwrites_earlier_log
    (rs1 rs2 : List ProtocolResult)
    (fs : String → Option (List PVal)) :
    writeAuditLog rs2 (writeAuditLog rs1 fs) = writeAuditLog rs2 fs := by
  funext p
  by_cases h : p = auditLogPath <;> simp [writeAuditLog, h]

end BeeTsp
